import Mathlib

/-!
Shallow embedding of the backend of a stock-market credit-risk analyzer.

The program combines an Altman Z-Score family of valuation models with a
Merton structural default model and merges the two zone classifications
into one advisory decision.  Machine floats are modelled as exact numbers
extended with infinities and a not-a-number element, so that the IEEE
behaviour of numpy float64 arithmetic on the exact inputs of interest is
reproduced; transcendental steps (square root, logarithm, the normal
cumulative distribution function) are modelled over the real numbers.
-/

/-- IEEE-style extended number over an ordered field: a finite value, the two
infinities, or not-a-number.  This mirrors how numpy float64 values behave on
the exact inputs the program manipulates. -/
inductive RFloat (α : Type) where
  | nan : RFloat α
  | pinf : RFloat α
  | ninf : RFloat α
  | val : α → RFloat α
  deriving DecidableEq

namespace RFloat

variable {α : Type} [LinearOrderedField α]

/-- Division of two finite numbers, with the IEEE results for a zero
denominator: a signed infinity, or nan for zero over zero.  numpy float64
division emits these silently instead of raising. -/
def fdiv (a b : α) : RFloat α :=
  if b = 0 then
    if a = 0 then nan
    else if 0 < a then pinf
    else ninf
  else val (a / b)

/-- Addition with nan absorption and the IEEE rules for infinities. -/
def add : RFloat α → RFloat α → RFloat α
  | nan, _ => nan
  | _, nan => nan
  | pinf, ninf => nan
  | ninf, pinf => nan
  | pinf, _ => pinf
  | _, pinf => pinf
  | ninf, _ => ninf
  | _, ninf => ninf
  | val a, val b => val (a + b)

/-- Multiplication by a finite constant (a model weight), with the IEEE sign
rules for infinities and nan absorption. -/
def cmul (c : α) : RFloat α → RFloat α
  | nan => nan
  | pinf => if 0 < c then pinf else if c < 0 then ninf else nan
  | ninf => if 0 < c then ninf else if c < 0 then pinf else nan
  | val a => val (c * a)

/-- Strictly-greater comparison against a finite threshold; nan compares
false, as in Python. -/
def gtB : RFloat α → α → Bool
  | nan, _ => false
  | pinf, _ => true
  | ninf, _ => false
  | val a, c => decide (c < a)

/-- Greater-or-equal comparison against a finite threshold; nan compares
false, as in Python. -/
def geB : RFloat α → α → Bool
  | nan, _ => false
  | pinf, _ => true
  | ninf, _ => false
  | val a, c => decide (c ≤ a)

/-- Strictly-less comparison against a finite threshold; nan compares false,
as in Python. -/
def ltB : RFloat α → α → Bool
  | nan, _ => false
  | pinf, _ => false
  | ninf, _ => true
  | val a, c => decide (a < c)

/-- Equality-with-zero test (the Python comparison sigma == 0); nan compares
false. -/
def eqZeroB : RFloat α → Bool
  | val a => decide (a = 0)
  | _ => false

/-- Finiteness test: true exactly on finite values. -/
def isFinite : RFloat α → Bool
  | val _ => true
  | _ => false

/-- The finite value carried by a float, with a default of zero; only used
under a finiteness guard. -/
def toVal : RFloat α → α
  | val a => a
  | _ => 0

end RFloat

/-- The error taxonomy of the pipeline: a pydantic validation error carrying
its field messages, a Python ValueError, and a Python RuntimeError. -/
inductive EvalError where
  | validationError : List String → EvalError
  | valueError : String → EvalError
  | runtimeError : String → EvalError
  deriving DecidableEq

/-- The data fetched from the market-data provider for one ticker, after the
slicing to the four most recent reporting periods.  totalAssetsRow is the
balance-sheet row of total assets across the trailing periods in column
order (most recent first); the scalar fields are the most recent values the
accessors read from the statements, the current share price and the share
count. -/
structure ProviderData where
  totalAssetsRow : List ℚ
  workingCapital : ℚ
  retainedEarnings : ℚ
  totalLiabilities : ℚ
  currentLiabilities : ℚ
  stockholdersEquity : ℚ
  ebit : ℚ
  totalRevenue : ℚ
  currentPrice : ℚ
  sharesOutstanding : ℚ
  deriving DecidableEq

/-- A company as constructed by the program: the request fields plus the
fetched financial data. -/
structure Company where
  ticker : String
  industry_type : ℤ
  data : ProviderData
  deriving DecidableEq

namespace Company

/-- Total assets: the most recent entry of the total-assets row. -/
def total_assets (c : Company) : ℚ := c.data.totalAssetsRow.headI

/-- Working capital of the company. -/
def working_capital (c : Company) : ℚ := c.data.workingCapital

/-- Retained earnings of the company. -/
def retained_earnings (c : Company) : ℚ := c.data.retainedEarnings

/-- Total liabilities net minority interest. -/
def total_liabilities (c : Company) : ℚ := c.data.totalLiabilities

/-- Current liabilities of the company. -/
def current_liabilities (c : Company) : ℚ := c.data.currentLiabilities

/-- Book equity: stockholders equity. -/
def book_equity (c : Company) : ℚ := c.data.stockholdersEquity

/-- Market equity: current price times shares outstanding. -/
def market_equity (c : Company) : ℚ := c.data.currentPrice * c.data.sharesOutstanding

/-- Earnings before interest and taxes. -/
def ebit (c : Company) : ℚ := c.data.ebit

/-- Total revenue of the company. -/
def total_revenue (c : Company) : ℚ := c.data.totalRevenue

/-- X1 ratio: working capital over total assets, by numpy float division. -/
def x1 (c : Company) : RFloat ℚ := RFloat.fdiv c.working_capital c.total_assets

/-- X2 ratio: retained earnings over total assets, by numpy float division. -/
def x2 (c : Company) : RFloat ℚ := RFloat.fdiv c.retained_earnings c.total_assets

/-- X3 ratio: EBIT over total assets, by numpy float division. -/
def x3 (c : Company) : RFloat ℚ := RFloat.fdiv c.ebit c.total_assets

/-- X4 ratio: market equity over total liabilities, by numpy float
division. -/
def x4 (c : Company) : RFloat ℚ := RFloat.fdiv c.market_equity c.total_liabilities

/-- Modified X4 ratio: book equity over total liabilities, by numpy float
division. -/
def x4_mod (c : Company) : RFloat ℚ := RFloat.fdiv c.book_equity c.total_liabilities

/-- X5 ratio: total revenue over total assets, by numpy float division. -/
def x5 (c : Company) : RFloat ℚ := RFloat.fdiv c.total_revenue c.total_assets

/-- Construction of a Company: the industry type is validated before the try
block that fetches data, so an invalid industry type raises a ValueError
with no provider call; a provider failure inside the try block becomes a
RuntimeError.  The boolean records whether a data fetch was attempted. -/
def init (ticker : String) (industry_type : ℤ) (provider : Option ProviderData) :
    Except EvalError Company × Bool :=
  if industry_type = 1 ∨ industry_type = 2 ∨ industry_type = 3 then
    match provider with
    | some d => (.ok { ticker := ticker, industry_type := industry_type, data := d }, true)
    | none => (.error (.runtimeError "Failed to retrieve financial data"), true)
  else
    (.error (.valueError "industry_type must be 1, 2, or 3."), false)

end Company

/-- The three Altman Z-Score variants of the program. -/
inductive AltmanVariantKind where
  | classic
  | prime
  | emergingMarkets
  deriving DecidableEq

/-- The reported ratio set, rounded to six decimals by the compute methods. -/
structure RatiosDetail where
  x1 : RFloat ℚ
  x2 : RFloat ℚ
  x3 : RFloat ℚ
  x4 : RFloat ℚ
  x5 : RFloat ℚ
  deriving DecidableEq

namespace AltmanValuationModel

/-- SAFE_THRESHOLD of each variant, as declared on each subclass. -/
def SAFE_THRESHOLD (α : Type) [LinearOrderedField α] : AltmanVariantKind → α
  | .classic => 2.99
  | .prime => 2.6
  | .emergingMarkets => 2.6

/-- DISTRESS_THRESHOLD of each variant, as declared on each subclass. -/
def DISTRESS_THRESHOLD (α : Type) [LinearOrderedField α] : AltmanVariantKind → α
  | .classic => 1.81
  | .prime => 1.1
  | .emergingMarkets => 1.1

/-- Zone classification of a z-score: strictly above the safe threshold is
Safe Zone, at least the distress threshold is Grey Zone, otherwise Distress
Zone. -/
def classify {α : Type} [LinearOrderedField α] (k : AltmanVariantKind) (z : RFloat α) : String :=
  if z.gtB (SAFE_THRESHOLD α k) then "Safe Zone"
  else if z.geB (DISTRESS_THRESHOLD α k) then "Grey Zone"
  else "Distress Zone"

/-- Python class name of each variant, reported as model_name. -/
def model_name : AltmanVariantKind → String
  | .classic => "AltmanClassic"
  | .prime => "AltmanPrime"
  | .emergingMarkets => "AltmanEmergingMarkets"

/-- Factory method from the industry type: 1, 2 and 3 map to the three
variants and anything else raises a ValueError. -/
def for_industry_type (industry_type : ℤ) : Except EvalError AltmanVariantKind :=
  if industry_type = 1 then .ok .classic
  else if industry_type = 2 then .ok .prime
  else if industry_type = 3 then .ok .emergingMarkets
  else .error (.valueError "Invalid industry type. Must be 1, 2, or 3.")

/-- Decimal rounding to n places used when reporting values; infinities and
nan pass through as in Python round. -/
def roundTo (n : ℕ) : RFloat ℚ → RFloat ℚ
  | .val q => .val (((round (q * 10 ^ n) : ℤ) : ℚ) / 10 ^ n)
  | x => x

/-- The compute method of each variant: the weighted sum of the ratios in
the left-associated order of the source expression, together with the ratio
dictionary rounded to six decimals.  The classic variant uses the
market-based X4; the prime and emerging-markets variants use the modified
X4; the emerging-markets z-score has no X5 term. -/
def compute (k : AltmanVariantKind) (c : Company) : RFloat ℚ × RatiosDetail :=
  match k with
  | .classic =>
    let x1 := c.x1
    let x2 := c.x2
    let x3 := c.x3
    let x4 := c.x4
    let x5 := c.x5
    let z := ((((RFloat.cmul (1.2 : ℚ) x1).add (RFloat.cmul 1.4 x2)).add
      (RFloat.cmul 3.3 x3)).add (RFloat.cmul 0.6 x4)).add (RFloat.cmul 1.0 x5)
    (z, ⟨roundTo 6 x1, roundTo 6 x2, roundTo 6 x3, roundTo 6 x4, roundTo 6 x5⟩)
  | .prime =>
    let x1 := c.x1
    let x2 := c.x2
    let x3 := c.x3
    let x4 := c.x4_mod
    let x5 := c.x5
    let z := ((((RFloat.cmul (0.717 : ℚ) x1).add (RFloat.cmul 0.847 x2)).add
      (RFloat.cmul 3.107 x3)).add (RFloat.cmul 0.420 x4)).add (RFloat.cmul 0.998 x5)
    (z, ⟨roundTo 6 x1, roundTo 6 x2, roundTo 6 x3, roundTo 6 x4, roundTo 6 x5⟩)
  | .emergingMarkets =>
    let x1 := c.x1
    let x2 := c.x2
    let x3 := c.x3
    let x4 := c.x4_mod
    let x5 := c.x5
    let z := (((RFloat.cmul (6.56 : ℚ) x1).add (RFloat.cmul 3.26 x2)).add
      (RFloat.cmul 6.72 x3)).add (RFloat.cmul 1.05 x4)
    (z, ⟨roundTo 6 x1, roundTo 6 x2, roundTo 6 x3, roundTo 6 x4, roundTo 6 x5⟩)

/-- The structured evaluation dictionary of the evaluate method: the z-score
rounded to four decimals, the classification of the unrounded z-score, the
model name, and the rounded ratios. -/
structure EvalResult where
  z_score : RFloat ℚ
  classification : String
  model_name : String
  ratios : RatiosDetail

/-- The evaluate method: compute, then classify the raw z-score and round it
for reporting. -/
def evaluate (k : AltmanVariantKind) (c : Company) : EvalResult :=
  let zr := compute k c
  { z_score := roundTo 4 zr.1
    classification := classify k zr.1
    model_name := model_name k
    ratios := zr.2 }

end AltmanValuationModel

/-- The decision combiner of the two zone labels, exactly as the chain of
conditionals in the source; the final implicit Python fall-through returns
None, modelled as none. -/
def combined_decision (altman_cls merton_cls : String) : Option String :=
  if altman_cls = "Distress Zone" ∨ merton_cls = "Distress Zone" then some "Dismissed"
  else if altman_cls = "Safe Zone" ∧ merton_cls = "Safe Zone" then some "Approved"
  else if altman_cls = "Grey Zone" ∧ merton_cls = "Safe Zone" then some "Approved with Caution"
  else if altman_cls = "Safe Zone" ∧ merton_cls = "Grey Zone" then some "Approved with Caution"
  else if altman_cls = "Grey Zone" ∧ merton_cls = "Grey Zone" then some "Analysis Required"
  else none

/-- The three zone labels either classifier can emit. -/
def zoneLabels : List String := ["Safe Zone", "Grey Zone", "Distress Zone"]

namespace MertonModel

/-- Period-over-period percentage changes of a series in series order, as
pandas pct_change after dropping the leading NaN: entry i is the change from
the previous entry, with the IEEE result when the previous value is zero. -/
def pctChange : List ℚ → List (RFloat ℚ)
  | a :: b :: rest => RFloat.fdiv (b - a) a :: pctChange (b :: rest)
  | _ => []

/-- Removal of NaN entries, as pandas dropna; infinities remain. -/
def dropna (l : List (RFloat ℚ)) : List (RFloat ℚ) :=
  l.filter (fun x => decide (x ≠ RFloat.nan))

/-- Sample variance with denominator n - 1, on exact values. -/
def sampleVar (xs : List ℚ) : ℚ :=
  let n : ℚ := xs.length
  let m := xs.sum / n
  ((xs.map (fun x => (x - m) ^ 2)).sum) / (n - 1)

/-- Sample standard deviation in the sense of pandas Series.std with its
default delta degrees of freedom of one: NaN when there are fewer than two
observations or any non-finite observation, otherwise the square root of
the sample variance. -/
noncomputable def sampleStd (l : List (RFloat ℚ)) : RFloat ℝ :=
  if l.length < 2 then .nan
  else if l.any (fun x => !x.isFinite) then .nan
  else .val (Real.sqrt ((sampleVar (l.map RFloat.toVal) : ℚ) : ℝ))

/-- Asset volatility: the sample standard deviation of the percentage
changes of the total-assets row, NaN values dropped. -/
noncomputable def sigma (c : Company) : RFloat ℝ :=
  sampleStd (dropna (pctChange c.data.totalAssetsRow))

/-- Zone classification of a default probability: below one percent Safe,
below fifteen percent Grey, otherwise Distress; nan fails both comparisons
and falls to the last branch. -/
noncomputable def classifyMerton (prob : RFloat ℝ) : String :=
  if prob.ltB 0.01 then "Safe Zone"
  else if prob.ltB 0.15 then "Grey Zone"
  else "Distress Zone"

/-- Standard normal cumulative distribution function, as used through
scipy. -/
noncomputable def normCdf (x : ℝ) : ℝ :=
  (∫ t in Set.Iic x, Real.exp (-(t ^ 2) / 2)) / Real.sqrt (2 * Real.pi)

/-- The result dictionary of the Merton evaluate method: the degenerate
branch omits the distance_to_default key, modelled by an Option. -/
structure MertonResult where
  distance_to_default : Option (RFloat ℝ)
  default_probability : RFloat ℝ
  classification : String

/-- The Merton evaluate method: volatility from the asset history, then the
degenerate check sigma == 0 or V at most zero or D at most zero (note a NaN
sigma compares unequal to zero and passes this check), then the
distance-to-default expression exactly as parenthesised in the source, where
the horizon t multiplies the whole bracket, and the default probability from
the normal cumulative distribution function; nan propagates through every
arithmetic step. -/
noncomputable def evaluate (c : Company) : MertonResult :=
  let s := sigma c
  let v := c.total_assets
  let d := c.current_liabilities
  let r : ℝ := 0.04
  if s.eqZeroB ∨ v ≤ 0 ∨ d ≤ 0 then
    { distance_to_default := none
      default_probability := .nan
      classification := "Grey Zone" }
  else
    let t : ℝ := 2
    let dd : RFloat ℝ :=
      match s with
      | .val sv => .val (((Real.log ((v : ℝ) / (d : ℝ)) + (r - 0.5 * sv ^ 2)) * t) / (sv * Real.sqrt t))
      | _ => .nan
    let prob : RFloat ℝ :=
      match dd with
      | .val x => .val (1 - normCdf x)
      | _ => .nan
    { distance_to_default := some dd
      default_probability := prob
      classification := classifyMerton prob }

end MertonModel

/-- Modelled from the spec: the distance-to-default formula as the spec
states it, with the horizon multiplying only the drift term and not the
logarithm; declared only to be compared with the formula in the code. -/
noncomputable def specDistanceToDefault (v d s : ℝ) : ℝ :=
  (Real.log (v / d) + (0.04 - 0.5 * s ^ 2) * 2) / (s * Real.sqrt 2)

/-- The validated request of the endpoint. -/
structure ZScoreRequest where
  ticker : String
  industry_type : ℤ
  deriving DecidableEq

/-- Pydantic construction of a ZScoreRequest: the field validators normalise
the ticker and check the industry type, and their messages are collected
into one validation error raised before the handler runs. -/
def ZScoreRequest.validate (ticker : String) (industry_type : ℤ) :
    Except EvalError ZScoreRequest :=
  let t := ticker.trim.toUpper
  let tickerErrs := if t = "" then ["ticker must not be empty."] else []
  let industryErrs :=
    if industry_type = 1 ∨ industry_type = 2 ∨ industry_type = 3 then []
    else ["industry_type must be 1, 2, or 3."]
  let errs := tickerErrs ++ industryErrs
  if errs = [] then .ok { ticker := t, industry_type := industry_type }
  else .error (.validationError errs)

/-- The Merton block of the response schema. -/
structure MertonDetail where
  distance_to_default : RFloat ℝ
  default_probability : RFloat ℝ
  classification : String

/-- Pydantic construction of MertonDetail from the Merton result dictionary:
every declared field is required, so a dictionary without the
distance_to_default key is rejected with a validation error, while nan
values in present float fields are accepted. -/
def MertonDetail.ofResult (m : MertonModel.MertonResult) : Except EvalError MertonDetail :=
  match m.distance_to_default with
  | some dd =>
    .ok { distance_to_default := dd
          default_probability := m.default_probability
          classification := m.classification }
  | none => .error (.validationError ["distance_to_default: Field required"])

/-- The response schema of the endpoint. -/
structure ZScoreResponse where
  ticker : String
  model_name : String
  z_score : RFloat ℚ
  classification : String
  ratios : RatiosDetail
  merton : MertonDetail
  combined_decision : String

/-- The evaluation orchestrator: build the company (fetching data), select
and run the Altman model, run the Merton model, combine the two
classifications, and assemble the response; constructing the Merton detail
happens while building the response, and a missing combined decision would
also be rejected by the response schema.  The boolean records whether a data
fetch was attempted. -/
noncomputable def evaluate_company (request : ZScoreRequest) (provider : Option ProviderData) :
    Except EvalError ZScoreResponse × Bool :=
  match Company.init request.ticker request.industry_type provider with
  | (.error e, fetched) => (.error e, fetched)
  | (.ok company, fetched) =>
    match AltmanValuationModel.for_industry_type request.industry_type with
    | .error e => (.error e, fetched)
    | .ok kind =>
      let altman := AltmanValuationModel.evaluate kind company
      let merton := MertonModel.evaluate company
      let decision := combined_decision altman.classification merton.classification
      match MertonDetail.ofResult merton with
      | .error e => (.error e, fetched)
      | .ok md =>
        match decision with
        | some dec =>
          (.ok { ticker := request.ticker
                 model_name := altman.model_name
                 z_score := altman.z_score
                 classification := altman.classification
                 ratios := altman.ratios
                 merton := md
                 combined_decision := dec }, fetched)
        | none => (.error (.validationError ["combined_decision: Input should be a valid string"]), fetched)

/-- The evaluate endpoint: the pydantic request is built first, so a
validation failure returns before the orchestrator runs and before any data
fetch; the boolean records whether a data fetch was attempted. -/
noncomputable def endpoint (ticker : String) (industry_type : ℤ) (provider : Option ProviderData) :
    Except EvalError ZScoreResponse × Bool :=
  match ZScoreRequest.validate ticker industry_type with
  | .error e => (.error e, false)
  | .ok req => evaluate_company req provider

/-- Recogniser of a pydantic validation error among evaluation outcomes. -/
def isValidationError : Except EvalError ZScoreResponse → Bool
  | .error (.validationError _) => true
  | _ => false

/-- The field messages of a validation error outcome, empty otherwise. -/
def errorMessages : Except EvalError ZScoreResponse → List String
  | .error (.validationError msgs) => msgs
  | _ => []

/-- Provider data with a non-constant three-period asset history, giving an
asset volatility of the square root of two, and positive current
liabilities. -/
def mertonParenProvider : ProviderData :=
  { totalAssetsRow := [100, 100, 300]
    workingCapital := 30
    retainedEarnings := 20
    totalLiabilities := 40
    currentLiabilities := 50
    stockholdersEquity := 50
    ebit := 15
    totalRevenue := 80
    currentPrice := 10
    sharesOutstanding := 5 }

/-- Company exercising the non-degenerate Merton branch. -/
def mertonParenCompany : Company :=
  { ticker := "AAA", industry_type := 1, data := mertonParenProvider }

/-- Provider data with a constant four-period asset history, so the asset
volatility is exactly zero and the Merton fallback branch is taken. -/
def degenerateProvider : ProviderData :=
  { totalAssetsRow := [1000, 1000, 1000, 1000]
    workingCapital := 300
    retainedEarnings := 200
    totalLiabilities := 400
    currentLiabilities := 100
    stockholdersEquity := 500
    ebit := 150
    totalRevenue := 800
    currentPrice := 10
    sharesOutstanding := 50 }

/-- Company exercising the degenerate Merton branch. -/
def degenerateCompany : Company :=
  { ticker := "AAA", industry_type := 1, data := degenerateProvider }

/-- Provider data with only two total-asset observations, hence a single
percentage change and an undefined (NaN) sample standard deviation. -/
def shortHistoryProvider : ProviderData :=
  { totalAssetsRow := [100, 110]
    workingCapital := 30
    retainedEarnings := 20
    totalLiabilities := 40
    currentLiabilities := 50
    stockholdersEquity := 50
    ebit := 15
    totalRevenue := 80
    currentPrice := 10
    sharesOutstanding := 5 }

/-- Company with fewer than three total-asset observations. -/
def shortHistoryCompany : Company :=
  { ticker := "BBB", industry_type := 1, data := shortHistoryProvider }

/-- Provider data whose statement is malformed: total assets and total
liabilities are both zero. -/
def zeroDenomProvider : ProviderData :=
  { totalAssetsRow := [0, 0]
    workingCapital := 300
    retainedEarnings := 200
    totalLiabilities := 0
    currentLiabilities := 100
    stockholdersEquity := 500
    ebit := -150
    totalRevenue := 0
    currentPrice := 10
    sharesOutstanding := 50 }

/-- Company with a malformed statement (zero denominators). -/
def zeroDenomCompany : Company :=
  { ticker := "CCC", industry_type := 1, data := zeroDenomProvider }

/-- Provider data with well-formed nonzero denominators, matching the
end-to-end example of the spec. -/
def wellFormedProvider : ProviderData :=
  { totalAssetsRow := [1000, 900, 800, 700]
    workingCapital := 300
    retainedEarnings := 200
    totalLiabilities := 400
    currentLiabilities := 100
    stockholdersEquity := 500
    ebit := 150
    totalRevenue := 800
    currentPrice := 10
    sharesOutstanding := 50 }

/-- Company with a well-formed statement. -/
def wellFormedCompany : Company :=
  { ticker := "AAA", industry_type := 1, data := wellFormedProvider }

/-- Division with a nonzero denominator is exact. -/
theorem RFloat.fdiv_of_ne {α : Type} [LinearOrderedField α] (a : α) {b : α} (hb : b ≠ 0) :
    RFloat.fdiv a b = RFloat.val (a / b) := by
  simp [RFloat.fdiv, hb]

/-- C7: the decision combiner realises the exact nine-entry table: any
Distress on either side is Dismissed, both Safe is Approved, one Safe and
one Grey in either order is Approved with Caution, and both Grey is
Analysis Required. -/
theorem combined_decision_exact_table :
    combined_decision "Safe Zone" "Safe Zone" = some "Approved" ∧
    combined_decision "Safe Zone" "Grey Zone" = some "Approved with Caution" ∧
    combined_decision "Grey Zone" "Safe Zone" = some "Approved with Caution" ∧
    combined_decision "Grey Zone" "Grey Zone" = some "Analysis Required" ∧
    combined_decision "Safe Zone" "Distress Zone" = some "Dismissed" ∧
    combined_decision "Grey Zone" "Distress Zone" = some "Dismissed" ∧
    combined_decision "Distress Zone" "Safe Zone" = some "Dismissed" ∧
    combined_decision "Distress Zone" "Grey Zone" = some "Dismissed" ∧
    combined_decision "Distress Zone" "Distress Zone" = some "Dismissed" := by
  decide

/-- C4: on a statement with zero total assets and zero total liabilities the
ratio computations do not raise any error; numpy float division silently
produces infinities (or nan for zero over zero) in x1, x3, x4, the modified
x4 and x5. -/
theorem ratios_zero_denominator_silent_infinity :
    Company.x1 zeroDenomCompany = RFloat.pinf ∧
    Company.x3 zeroDenomCompany = RFloat.ninf ∧
    Company.x4 zeroDenomCompany = RFloat.pinf ∧
    Company.x4_mod zeroDenomCompany = RFloat.pinf ∧
    Company.x5 zeroDenomCompany = RFloat.nan := by
  refine ⟨?_, ?_, ?_, ?_, ?_⟩ <;>
    norm_num [Company.x1, Company.x3, Company.x4, Company.x4_mod, Company.x5,
      Company.working_capital, Company.ebit, Company.market_equity, Company.total_revenue,
      Company.total_assets, Company.total_liabilities, Company.book_equity,
      zeroDenomCompany, zeroDenomProvider, RFloat.fdiv, List.headI]

/-- Classification of a finite score as an ordinary conditional on the
underlying value. -/
theorem classify_val {α : Type} [LinearOrderedField α] (k : AltmanVariantKind) (z : α) :
    AltmanValuationModel.classify k (RFloat.val z) =
      if AltmanValuationModel.SAFE_THRESHOLD α k < z then "Safe Zone"
      else if AltmanValuationModel.DISTRESS_THRESHOLD α k ≤ z then "Grey Zone"
      else "Distress Zone" := by
  simp [AltmanValuationModel.classify, RFloat.gtB, RFloat.geB]

/-- The distress threshold of every variant is below its safe threshold. -/
theorem distress_le_safe (α : Type) [LinearOrderedField α] (k : AltmanVariantKind) :
    AltmanValuationModel.DISTRESS_THRESHOLD α k ≤ AltmanValuationModel.SAFE_THRESHOLD α k := by
  cases k <;>
    norm_num [AltmanValuationModel.DISTRESS_THRESHOLD, AltmanValuationModel.SAFE_THRESHOLD]

/-- A finite score classifies Safe exactly when it is strictly above the
safe threshold. -/
theorem classify_eq_safe_iff {α : Type} [LinearOrderedField α] (k : AltmanVariantKind) (z : α) :
    AltmanValuationModel.classify k (RFloat.val z) = "Safe Zone" ↔
      AltmanValuationModel.SAFE_THRESHOLD α k < z := by
  rw [classify_val]
  split_ifs with h1 h2 <;> simp [h1]

/-- A finite score classifies Distress exactly when it is strictly below the
distress threshold. -/
theorem classify_eq_distress_iff {α : Type} [LinearOrderedField α] (k : AltmanVariantKind) (z : α) :
    AltmanValuationModel.classify k (RFloat.val z) = "Distress Zone" ↔
      z < AltmanValuationModel.DISTRESS_THRESHOLD α k := by
  have hds := distress_le_safe α k
  rw [classify_val]
  split_ifs with h1 h2
  · constructor
    · intro h; exact absurd h (by simp)
    · intro h; exact absurd h1 (not_lt.mpr (le_of_lt (lt_of_lt_of_le h hds)))
  · constructor
    · intro h; exact absurd h (by simp)
    · intro h; exact absurd h2 (not_le.mpr h)
  · simpa using not_le.mp h2

/-- A finite score classifies Grey exactly when it lies in the closed band
between the two thresholds. -/
theorem classify_eq_grey_iff {α : Type} [LinearOrderedField α] (k : AltmanVariantKind) (z : α) :
    AltmanValuationModel.classify k (RFloat.val z) = "Grey Zone" ↔
      AltmanValuationModel.DISTRESS_THRESHOLD α k ≤ z ∧
      z ≤ AltmanValuationModel.SAFE_THRESHOLD α k := by
  rw [classify_val]
  split_ifs with h1 h2
  · constructor
    · intro h; exact absurd h (by simp)
    · intro h; exact absurd h1 (not_lt.mpr h.2)
  · simp [h2, not_lt.mp h1]
  · constructor
    · intro h; exact absurd h (by simp)
    · intro h; exact absurd h2 (not_not_intro h.1)

/-- C6: for every variant and every real score, the Grey interval is closed
on both ends: a score exactly at the safe threshold classifies Grey, not
Safe, and a score exactly at the distress threshold classifies Grey, not
Distress; Safe requires strictly exceeding the safe threshold and Distress
strictly undershooting the distress threshold. -/
theorem classify_boundary_conventions :
    ∀ (k : AltmanVariantKind) (z : ℝ),
      (AltmanValuationModel.classify k (RFloat.val z) = "Safe Zone" ↔
        AltmanValuationModel.SAFE_THRESHOLD ℝ k < z) ∧
      (AltmanValuationModel.classify k (RFloat.val z) = "Distress Zone" ↔
        z < AltmanValuationModel.DISTRESS_THRESHOLD ℝ k) ∧
      (AltmanValuationModel.classify k (RFloat.val z) = "Grey Zone" ↔
        AltmanValuationModel.DISTRESS_THRESHOLD ℝ k ≤ z ∧
          z ≤ AltmanValuationModel.SAFE_THRESHOLD ℝ k) ∧
      AltmanValuationModel.classify k
        (RFloat.val (AltmanValuationModel.SAFE_THRESHOLD ℝ k)) = "Grey Zone" ∧
      AltmanValuationModel.classify k
        (RFloat.val (AltmanValuationModel.DISTRESS_THRESHOLD ℝ k)) = "Grey Zone" := by
  intro k z
  refine ⟨classify_eq_safe_iff k z, classify_eq_distress_iff k z, classify_eq_grey_iff k z, ?_, ?_⟩
  · exact (classify_eq_grey_iff k _).mpr ⟨distress_le_safe ℝ k, le_refl _⟩
  · exact (classify_eq_grey_iff k _).mpr ⟨le_refl _, distress_le_safe ℝ k⟩

/-- Merton classification of a finite probability as an ordinary conditional
on the underlying value. -/
theorem classifyMerton_val (p : ℝ) :
    MertonModel.classifyMerton (RFloat.val p) =
      if p < 0.01 then "Safe Zone"
      else if p < 0.15 then "Grey Zone"
      else "Distress Zone" := by
  simp [MertonModel.classifyMerton, RFloat.ltB]

/-- Every Altman classification is one of the three zone labels, whatever
the score, finite or not. -/
theorem classify_mem_zoneLabels {α : Type} [LinearOrderedField α]
    (k : AltmanVariantKind) (z : RFloat α) :
    AltmanValuationModel.classify k z ∈ zoneLabels := by
  unfold AltmanValuationModel.classify
  split_ifs <;> simp [zoneLabels]

/-- Every Merton classification is one of the three zone labels, whatever
the probability, finite or not. -/
theorem classifyMerton_mem_zoneLabels (p : RFloat ℝ) :
    MertonModel.classifyMerton p ∈ zoneLabels := by
  unfold MertonModel.classifyMerton
  split_ifs <;> simp [zoneLabels]

/-- The classification field of every Merton evaluation is one of the three
zone labels. -/
theorem merton_evaluate_classification_mem (c : Company) :
    (MertonModel.evaluate c).classification ∈ zoneLabels := by
  simp only [MertonModel.evaluate]
  split
  · simp [zoneLabels]
  · exact classifyMerton_mem_zoneLabels _

/-- C9: zone classification is total: the three zone labels are pairwise
distinct, every real z-score classifies to one of them under every Altman
variant, and every real default probability classifies to exactly the zone
of its threshold band under the Merton classifier, with no gaps or
overlaps. -/
theorem zone_classification_total :
    zoneLabels.Nodup ∧
    (∀ (k : AltmanVariantKind) (z : ℝ),
      AltmanValuationModel.classify k (RFloat.val z) ∈ zoneLabels) ∧
    (∀ p : ℝ,
      MertonModel.classifyMerton (RFloat.val p) ∈ zoneLabels ∧
      (MertonModel.classifyMerton (RFloat.val p) = "Safe Zone" ↔ p < 0.01) ∧
      (MertonModel.classifyMerton (RFloat.val p) = "Grey Zone" ↔ 0.01 ≤ p ∧ p < 0.15) ∧
      (MertonModel.classifyMerton (RFloat.val p) = "Distress Zone" ↔ 0.15 ≤ p)) := by
  refine ⟨by simp [zoneLabels], fun k z => classify_mem_zoneLabels k _, fun p => ⟨classifyMerton_mem_zoneLabels _, ?_, ?_, ?_⟩⟩
  · rw [classifyMerton_val]
    split_ifs with h1 h2 <;> simp [h1]
  · rw [classifyMerton_val]
    split_ifs with h1 h2
    · constructor
      · intro h; exact absurd h (by simp)
      · intro h; exact absurd h1 (not_lt.mpr h.1)
    · simp [h2, not_lt.mp h1]
    · constructor
      · intro h; exact absurd h (by simp)
      · intro h; exact absurd h.2 h2
  · rw [classifyMerton_val]
    split_ifs with h1 h2
    · constructor
      · intro h; exact absurd h (by simp)
      · intro h; exact absurd h1 (not_lt.mpr (le_trans (by norm_num) h))
    · constructor
      · intro h; exact absurd h (by simp)
      · intro h; exact absurd h2 (not_lt.mpr h)
    · simpa using not_lt.mp h2

/-- Both-in-table pairs always produce a decision. -/
theorem combined_decision_isSome_of_mem (a m : String)
    (ha : a ∈ zoneLabels) (hm : m ∈ zoneLabels) :
    (combined_decision a m).isSome = true := by
  simp only [zoneLabels, List.mem_cons, List.mem_singleton, List.not_mem_nil, or_false] at ha hm
  rcases ha with rfl | rfl | rfl <;> rcases hm with rfl | rfl | rfl <;> decide

/-- C10: the combiner returns no decision only on labels outside the
three-zone table: for arguments where neither side is the Distress label
and at least one side is not a zone label, the result is none; both
classifiers only ever emit the three zone labels, so along the evaluation
pipeline the combined decision always exists. -/
theorem combined_decision_none_unreachable :
    (∀ a m : String, a ≠ "Distress Zone" → m ≠ "Distress Zone" →
      (a ∉ zoneLabels ∨ m ∉ zoneLabels) → combined_decision a m = none) ∧
    (∀ (k : AltmanVariantKind) (z : RFloat ℚ),
      AltmanValuationModel.classify k z ∈ zoneLabels) ∧
    (∀ c : Company, (MertonModel.evaluate c).classification ∈ zoneLabels) ∧
    (∀ a m : String, a ∈ zoneLabels → m ∈ zoneLabels →
      (combined_decision a m).isSome = true) ∧
    (∀ (k : AltmanVariantKind) (c : Company),
      (combined_decision
        (AltmanValuationModel.classify k (AltmanValuationModel.compute k c).1)
        (MertonModel.evaluate c).classification).isSome = true) := by
  refine ⟨?_, fun k z => classify_mem_zoneLabels k z,
    fun c => merton_evaluate_classification_mem c,
    combined_decision_isSome_of_mem,
    fun k c => combined_decision_isSome_of_mem _ _
      (classify_mem_zoneLabels k _) (merton_evaluate_classification_mem c)⟩
  intro a m h1 h2 h3
  simp only [zoneLabels, List.mem_cons, List.mem_singleton, List.not_mem_nil, or_false,
    not_or] at h3
  rcases h3 with ⟨hs, hg, _⟩ | ⟨hs, hg, _⟩ <;>
    simp [combined_decision, h1, h2, hs, hg]

/-- C10 witness: a non-zone label on the Altman side with a Safe Merton side
yields no decision. -/
theorem combined_decision_none_unreachable_witness :
    combined_decision "Insufficient Data" "Safe Zone" = none :=
  combined_decision_none_unreachable.1 "Insufficient Data" "Safe Zone"
    (by decide) (by decide) (by decide)

/-- C8: industry code 1 selects the classic variant, whose z-score is the
exact weighted sum 1.2, 1.4, 3.3, 0.6, 1.0 over x1..x5 with the
market-based x4; industry codes 2 and 3 select the prime and
emerging-markets variants, which use the book-equity modified x4; the
emerging-markets z-score is 6.56, 3.26, 6.72, 1.05 over x1..x4 with no x5
term, hence independent of total revenue. -/
theorem altman_variant_formulas :
    ∀ c : Company, c.total_assets ≠ 0 → c.total_liabilities ≠ 0 →
      AltmanValuationModel.for_industry_type 1 = Except.ok AltmanVariantKind.classic ∧
      AltmanValuationModel.for_industry_type 2 = Except.ok AltmanVariantKind.prime ∧
      AltmanValuationModel.for_industry_type 3 = Except.ok AltmanVariantKind.emergingMarkets ∧
      (AltmanValuationModel.compute AltmanVariantKind.classic c).1 = RFloat.val
        (1.2 * (c.working_capital / c.total_assets)
          + 1.4 * (c.retained_earnings / c.total_assets)
          + 3.3 * (c.ebit / c.total_assets)
          + 0.6 * (c.market_equity / c.total_liabilities)
          + 1.0 * (c.total_revenue / c.total_assets)) ∧
      (AltmanValuationModel.compute AltmanVariantKind.prime c).1 = RFloat.val
        (0.717 * (c.working_capital / c.total_assets)
          + 0.847 * (c.retained_earnings / c.total_assets)
          + 3.107 * (c.ebit / c.total_assets)
          + 0.420 * (c.book_equity / c.total_liabilities)
          + 0.998 * (c.total_revenue / c.total_assets)) ∧
      (AltmanValuationModel.compute AltmanVariantKind.emergingMarkets c).1 = RFloat.val
        (6.56 * (c.working_capital / c.total_assets)
          + 3.26 * (c.retained_earnings / c.total_assets)
          + 6.72 * (c.ebit / c.total_assets)
          + 1.05 * (c.book_equity / c.total_liabilities)) ∧
      (∀ r : ℚ, (AltmanValuationModel.compute AltmanVariantKind.emergingMarkets
          { c with data := { c.data with totalRevenue := r } }).1
        = (AltmanValuationModel.compute AltmanVariantKind.emergingMarkets c).1) := by
  intro c hta htl
  refine ⟨by norm_num [AltmanValuationModel.for_industry_type],
    by norm_num [AltmanValuationModel.for_industry_type],
    by norm_num [AltmanValuationModel.for_industry_type], ?_, ?_, ?_, fun r => rfl⟩ <;>
    simp only [AltmanValuationModel.compute, Company.x1, Company.x2, Company.x3, Company.x4,
      Company.x4_mod, Company.x5, RFloat.fdiv_of_ne _ hta, RFloat.fdiv_of_ne _ htl,
      RFloat.cmul, RFloat.add]

/-- C8 witness: on the end-to-end example of the spec the classic z-score
evaluates to 2.685. -/
theorem altman_variant_formulas_witness :
    (AltmanValuationModel.compute AltmanVariantKind.classic wellFormedCompany).1
      = RFloat.val 2.685 := by
  have h := (altman_variant_formulas wellFormedCompany
    (by norm_num [Company.total_assets, wellFormedCompany, wellFormedProvider, List.headI])
    (by norm_num [Company.total_liabilities, wellFormedCompany, wellFormedProvider])).2.2.2.1
  rw [h]
  norm_num [Company.working_capital, Company.retained_earnings, Company.ebit,
    Company.market_equity, Company.total_revenue, Company.total_assets,
    Company.total_liabilities, wellFormedCompany, wellFormedProvider, List.headI]

/-- C5: for every industry code outside 1, 2, 3 the endpoint fails with a
pydantic validation error carrying the industry message, and no data fetch
is attempted: the request validators run before the orchestrator. -/
theorem invalid_industry_fails_before_fetch :
    ∀ (ticker : String) (industry_type : ℤ) (provider : Option ProviderData),
      industry_type ≠ 1 → industry_type ≠ 2 → industry_type ≠ 3 →
      isValidationError (endpoint ticker industry_type provider).1 = true ∧
      "industry_type must be 1, 2, or 3." ∈
        errorMessages (endpoint ticker industry_type provider).1 ∧
      (endpoint ticker industry_type provider).2 = false := by
  intro ticker i provider h1 h2 h3
  have hind : ¬(i = 1 ∨ i = 2 ∨ i = 3) := by simp [h1, h2, h3]
  by_cases ht : ticker.trim.toUpper = "" <;>
    simp [endpoint, ZScoreRequest.validate, hind, ht, isValidationError, errorMessages]

/-- C5 witness: industry code 7 is rejected by validation with no fetch. -/
theorem invalid_industry_fails_before_fetch_witness :
    isValidationError (endpoint "AAPL" 7 none).1 = true ∧
    "industry_type must be 1, 2, or 3." ∈ errorMessages (endpoint "AAPL" 7 none).1 ∧
    (endpoint "AAPL" 7 none).2 = false :=
  invalid_industry_fails_before_fetch "AAPL" 7 none (by decide) (by decide) (by decide)

/-- With only two asset observations there is a single percentage change,
so the sample standard deviation is undefined (NaN). -/
theorem sigma_shortHistory : MertonModel.sigma shortHistoryCompany = RFloat.nan := by
  have h1 : MertonModel.pctChange [100, 110] = [RFloat.val (1 / 10)] := by
    norm_num [MertonModel.pctChange, RFloat.fdiv]
  have h2 : MertonModel.dropna [RFloat.val (1 / 10)] = [RFloat.val (1 / 10)] := by
    simp [MertonModel.dropna, List.filter_cons]
  have hrow : shortHistoryCompany.data.totalAssetsRow = [100, 110] := rfl
  rw [MertonModel.sigma, hrow, h1, h2]
  norm_num [MertonModel.sampleStd]

/-- C3: with fewer than three total-asset observations sigma is NaN, which
passes the sigma == 0 degeneracy check, so the evaluation takes the
non-degenerate branch: the distance to default and the probability are NaN
and the NaN probability fails both threshold comparisons, classifying
Distress Zone rather than the Grey Zone fallback. -/
theorem merton_short_history_classifies_distress :
    MertonModel.sigma shortHistoryCompany = RFloat.nan ∧
    MertonModel.evaluate shortHistoryCompany =
      { distance_to_default := some RFloat.nan
        default_probability := RFloat.nan
        classification := "Distress Zone" } := by
  refine ⟨sigma_shortHistory, ?_⟩
  have hv : shortHistoryCompany.total_assets = 100 := rfl
  have hd : shortHistoryCompany.current_liabilities = 50 := rfl
  simp only [MertonModel.evaluate, sigma_shortHistory, hv, hd, RFloat.eqZeroB]
  rw [if_neg (by norm_num)]
  simp [MertonModel.classifyMerton, RFloat.ltB]

/-- A constant asset history gives exactly zero volatility. -/
theorem sigma_degenerate : MertonModel.sigma degenerateCompany = RFloat.val 0 := by
  have h1 : MertonModel.pctChange [1000, 1000, 1000, 1000]
      = [RFloat.val 0, RFloat.val 0, RFloat.val 0] := by
    norm_num [MertonModel.pctChange, RFloat.fdiv]
  have h2 : MertonModel.dropna [RFloat.val 0, RFloat.val 0, RFloat.val 0]
      = [RFloat.val 0, RFloat.val 0, RFloat.val 0] := by
    simp [MertonModel.dropna, List.filter_cons]
  have hrow : degenerateCompany.data.totalAssetsRow = [1000, 1000, 1000, 1000] := rfl
  rw [MertonModel.sigma, hrow, h1, h2]
  have hvar : MertonModel.sampleVar [(0 : ℚ), 0, 0] = 0 := by
    norm_num [MertonModel.sampleVar]
  norm_num [MertonModel.sampleStd, RFloat.isFinite, RFloat.toVal, hvar]

/-- The degenerate branch of the Merton evaluation on the constant-history
company. -/
theorem merton_degenerate_eval :
    MertonModel.evaluate degenerateCompany =
      { distance_to_default := none
        default_probability := RFloat.nan
        classification := "Grey Zone" } := by
  simp only [MertonModel.evaluate, sigma_degenerate, RFloat.eqZeroB]
  simp

/-- C2: on a degenerate input (constant assets, hence sigma = 0) the Merton
evaluation does return the fallback dictionary with a NaN probability, a
Grey Zone classification and no distance_to_default key; but the response
schema declares distance_to_default as a required field, so the
orchestrator rejects the evaluation with a validation error instead of
returning a full structured result. -/
theorem merton_degenerate_fallback_breaks_response :
    MertonModel.evaluate degenerateCompany =
      { distance_to_default := none
        default_probability := RFloat.nan
        classification := "Grey Zone" } ∧
    evaluate_company { ticker := "AAA", industry_type := 1 } (some degenerateProvider) =
      (Except.error (EvalError.validationError ["distance_to_default: Field required"]), true) := by
  refine ⟨merton_degenerate_eval, ?_⟩
  have hinit : Company.init "AAA" 1 (some degenerateProvider)
      = (Except.ok degenerateCompany, true) := by
    norm_num [Company.init, degenerateCompany]
  have hfit : AltmanValuationModel.for_industry_type 1 = Except.ok AltmanVariantKind.classic := by
    norm_num [AltmanValuationModel.for_industry_type]
  simp only [evaluate_company, hinit, hfit, merton_degenerate_eval, MertonDetail.ofResult]

/-- The three-period history 100, 100, 300 has percentage changes 0 and 2,
whose sample standard deviation is the square root of two. -/
theorem sigma_mertonParen : MertonModel.sigma mertonParenCompany = RFloat.val (Real.sqrt 2) := by
  have h1 : MertonModel.pctChange [100, 100, 300] = [RFloat.val 0, RFloat.val 2] := by
    norm_num [MertonModel.pctChange, RFloat.fdiv]
  have h2 : MertonModel.dropna [RFloat.val 0, RFloat.val 2] = [RFloat.val 0, RFloat.val 2] := by
    simp [MertonModel.dropna, List.filter_cons]
  have hrow : mertonParenCompany.data.totalAssetsRow = [100, 100, 300] := rfl
  rw [MertonModel.sigma, hrow, h1, h2]
  have hvar : MertonModel.sampleVar [(0 : ℚ), 2] = 2 := by
    norm_num [MertonModel.sampleVar]
  norm_num [MertonModel.sampleStd, RFloat.isFinite, RFloat.toVal, hvar]

/-- The non-degenerate Merton evaluation on that company: the code divides
the whole bracket, including the logarithm, by the horizon structure of the
source expression, giving a distance to default of ln 2 minus 0.96. -/
theorem merton_eval_paren :
    (MertonModel.evaluate mertonParenCompany).distance_to_default
      = some (RFloat.val (Real.log 2 - 0.96)) ∧
    (MertonModel.evaluate mertonParenCompany).default_probability
      = RFloat.val (1 - MertonModel.normCdf (Real.log 2 - 0.96)) := by
  have hv : mertonParenCompany.total_assets = 100 := rfl
  have hd : mertonParenCompany.current_liabilities = 50 := rfl
  have hs2 : Real.sqrt 2 ≠ 0 := ne_of_gt (Real.sqrt_pos.mpr (by norm_num))
  have hdd : (Real.log (((100 : ℚ) : ℝ) / ((50 : ℚ) : ℝ))
        + ((0.04 : ℝ) - 0.5 * Real.sqrt 2 ^ 2)) * 2 / (Real.sqrt 2 * Real.sqrt 2)
      = Real.log 2 - 0.96 := by
    have hc : (((100 : ℚ) : ℝ) / ((50 : ℚ) : ℝ)) = 2 := by norm_num
    rw [hc, Real.sq_sqrt (by norm_num : (0 : ℝ) ≤ 2),
      Real.mul_self_sqrt (by norm_num : (0 : ℝ) ≤ 2)]
    ring
  constructor <;>
  · simp only [MertonModel.evaluate, sigma_mertonParen, hv, hd]
    rw [if_neg (by simp [RFloat.eqZeroB, hs2])]
    dsimp only
    rw [hdd]

/-- C1: at a concrete non-degenerate input (assets 100, 100, 300, so sigma
is the square root of two, V = 100, D = 50, r = 0.04, t = 2) the code
evaluates the distance to default to ln 2 minus 0.96, because the source
multiplies the whole bracket, including ln of V over D, by the horizon t;
the default probability is one minus the normal distribution at that value;
and this distance differs from the value of the spec formula, in which t
multiplies only the drift term. -/
theorem merton_dd_horizon_misplaced :
    (MertonModel.evaluate mertonParenCompany).distance_to_default
      = some (RFloat.val (Real.log 2 - 0.96)) ∧
    (MertonModel.evaluate mertonParenCompany).default_probability
      = RFloat.val (1 - MertonModel.normCdf (Real.log 2 - 0.96)) ∧
    Real.log 2 - 0.96 ≠ specDistanceToDefault 100 50 (Real.sqrt 2) := by
  refine ⟨merton_eval_paren.1, merton_eval_paren.2, ?_⟩
  have hspec : specDistanceToDefault 100 50 (Real.sqrt 2) = (Real.log 2 - 1.92) / 2 := by
    rw [specDistanceToDefault, Real.sq_sqrt (by norm_num : (0 : ℝ) ≤ 2),
      Real.mul_self_sqrt (by norm_num : (0 : ℝ) ≤ 2)]
    norm_num
    ring
  rw [hspec]
  have hlog : 0 < Real.log 2 := Real.log_pos (by norm_num)
  intro h
  linarith
